import Mathlib

/- Verification of the LLM_WebScraper core: the fetch-detect-solve-retry-analyze
pipeline (src/agents/orchestrator.py), the CAPTCHA detector
(src/tools/web_scraper.py), the content-analyzer response handling
(src/agents/content_analyzer.py) and the CAPTCHA-solver normalization
(src/agents/captcha_solver.py), shallowly embedded over explicit data. -/

/- ## String utilities (Python str operations over List Char) -/

def toLowerStr (s : List Char) : List Char := s.map Char.toLower

def startsWithL (needle hay : List Char) : Bool :=
  match needle, hay with
  | [], _ => true
  | n :: ns, h :: hs => if n == h then startsWithL ns hs else false
  | _ :: _, [] => false

def containsSub (needle hay : List Char) : Bool :=
  hay.tails.any (fun t => startsWithL needle t)

def splitLinesAux : List Char → List Char → List (List Char)
  | [], acc => [acc.reverse]
  | c :: rest, acc =>
    if c == '\n' then acc.reverse :: splitLinesAux rest []
    else splitLinesAux rest (c :: acc)

def splitLines (s : List Char) : List (List Char) := splitLinesAux s []

/- Python str.strip(chars): remove all leading and trailing characters drawn
from the given set. -/
def pyStrip (chars : List Char) (s : List Char) : List Char :=
  ((s.dropWhile (fun c => chars.contains c)).reverse.dropWhile
    (fun c => chars.contains c)).reverse

def pyWhitespace : List Char := [' ', '\t', '\n', '\r', '\x0b', '\x0c']

def quoteChars : List Char := [Char.ofNat 34, Char.ofNat 39]

/- ## Regex-lite: the exact pattern shapes used by detect_captcha.
Python re.search(p, s, re.I) where p is either a literal or a pattern of the
form a.*b; the dot does not match a newline, so a.*b matches iff some
newline-free segment contains a followed (disjointly) by b. Case-insensitivity
is modelled by lowercasing the haystack (all needles are lowercase ASCII). -/

inductive Pat where
  | lit (w : List Char)
  | dotStar (a b : List Char)

def matchDotStarLine (a b line : List Char) : Bool :=
  line.tails.any (fun t => startsWithL a t && containsSub b (t.drop a.length))

def reSearchI : Pat → List Char → Bool
  | Pat.lit w, s => containsSub w (toLowerStr s)
  | Pat.dotStar a b, s =>
    (splitLines (toLowerStr s)).any (fun line => matchDotStarLine a b line)

/- ## HTML document model (the BeautifulSoup view used by detect_captcha):
a parsed forest of text nodes and elements with attributes. -/

inductive Node where
  | text (s : List Char)
  | elem (tag : List Char) (attrs : List (List Char × List Char))
      (children : List Node)

mutual

/- Model of BeautifulSoup get_text(): concatenation of all text nodes in
document order. -/
def getTextNode : Node → List Char
  | Node.text s => s
  | Node.elem _ _ cs => getTextList cs

def getTextList : List Node → List Char
  | [] => []
  | n :: ns => getTextNode n ++ getTextList ns

end

def serializeAttrs : List (List Char × List Char) → List Char
  | [] => []
  | (k, v) :: rest =>
    (" ".toList) ++ k ++ ("=\"".toList) ++ v ++ ("\"".toList) ++
      serializeAttrs rest

def voidTags : List (List Char) := [("img".toList), ("input".toList)]

mutual

/- Model of BeautifulSoup str(elem): serialized markup of an element, with
void elements (img, input) rendered self-closing. -/
def serializeNode : Node → List Char
  | Node.text s => s
  | Node.elem tag attrs cs =>
    if voidTags.contains tag then
      ("<".toList) ++ tag ++ serializeAttrs attrs ++ ("/>".toList)
    else
      ("<".toList) ++ tag ++ serializeAttrs attrs ++ (">".toList) ++
        serializeList cs ++ ("</".toList) ++ tag ++ (">".toList)

def serializeList : List Node → List Char
  | [] => []
  | n :: ns => serializeNode n ++ serializeList ns

end

mutual

/- Model of soup.find_all(tags): all elements whose tag is in the given list,
in document (preorder) order. -/
def findAllNode (tags : List (List Char)) : Node → List Node
  | Node.text _ => []
  | Node.elem tag attrs cs =>
    (if tags.contains tag then [Node.elem tag attrs cs] else []) ++
      findAllList tags cs

def findAllList (tags : List (List Char)) : List Node → List Node
  | [] => []
  | n :: ns => findAllNode tags n ++ findAllList tags ns

end

/- Model of elem.get(key, default []): first attribute with the given name. -/
def getAttr (n : Node) (key : List Char) : List Char :=
  match n with
  | Node.text _ => []
  | Node.elem _ attrs _ =>
    match attrs.find? (fun kv => kv.1 == key) with
    | some kv => kv.2
    | none => []

/- ## CaptchaDetector (WebScraperTool.detect_captcha, web_scraper.py:113-151) -/

def captcha_patterns : List Pat :=
  [Pat.lit ("captcha".toList),
   Pat.dotStar ("verify".toList) ("human".toList),
   Pat.dotStar ("prove".toList) ("human".toList),
   Pat.lit ("are you a robot".toList),
   Pat.dotStar ("not".toList) ("robot".toList)]

/- First check: signature patterns against the lowercased visible text. -/
def textHasCaptchaPhrase (doc : List Node) : Bool :=
  captcha_patterns.any (fun p => reSearchI p (toLowerStr (getTextList doc)))

/- Second check: signature patterns against the serialized markup of every
img, input, form, div element. -/
def elemHasCaptchaPhrase (doc : List Node) : Bool :=
  (findAllList [("img".toList), ("input".toList), ("form".toList),
      ("div".toList)] doc).any
    (fun e => captcha_patterns.any (fun p => reSearchI p (serializeNode e)))

/- Third check: the substring captcha in any img src or alt attribute,
case-insensitively. -/
def imgAttrHasCaptcha (doc : List Node) : Bool :=
  (findAllList [("img".toList)] doc).any
    (fun e =>
      containsSub ("captcha".toList) (toLowerStr (getAttr e ("src".toList))) ||
      containsSub ("captcha".toList) (toLowerStr (getAttr e ("alt".toList))))

/- WebScraperTool.detect_captcha: the three checks in source order. -/
def detect_captcha (doc : List Node) : Bool :=
  if textHasCaptchaPhrase doc then true
  else if elemHasCaptchaPhrase doc then true
  else if imgAttrHasCaptcha doc then true
  else false

/- ## JSON values and a model of Python json.loads -/

inductive JVal where
  | null
  | bool (b : Bool)
  | num (lexeme : List Char)
  | str (s : List Char)
  | arr (elems : List JVal)
  | obj (fields : List (List Char × JVal))

def JVal.isNull : JVal → Bool
  | JVal.null => true
  | _ => false

def jsonWsChar (c : Char) : Bool :=
  c == ' ' || c == '\t' || c == '\n' || c == '\r'

def skipWs (s : List Char) : List Char := s.dropWhile jsonWsChar

def isDigitCh (c : Char) : Bool := '0' ≤ c && c ≤ '9'

def hexVal (c : Char) : Option Nat :=
  let n := c.toNat
  if 48 ≤ n ∧ n ≤ 57 then some (n - 48)
  else if 97 ≤ n ∧ n ≤ 102 then some (n - 87)
  else if 65 ≤ n ∧ n ≤ 70 then some (n - 55)
  else none

def escapeChar (c : Char) : Option Char :=
  match c with
  | '"' => some '"'
  | '\\' => some '\\'
  | '/' => some '/'
  | 'b' => some (Char.ofNat 8)
  | 'f' => some (Char.ofNat 12)
  | 'n' => some '\n'
  | 'r' => some '\r'
  | 't' => some '\t'
  | _ => none

def parseStringBody : Nat → List Char → Option (List Char × List Char)
  | 0, _ => none
  | _ + 1, [] => none
  | fuel + 1, c :: rest =>
    if c == '"' then some ([], rest)
    else if c == '\\' then
      match rest with
      | [] => none
      | e :: rest2 =>
        if e == 'u' then
          match rest2 with
          | h1 :: h2 :: h3 :: h4 :: rest3 =>
            match hexVal h1, hexVal h2, hexVal h3, hexVal h4 with
            | some v1, some v2, some v3, some v4 =>
              match parseStringBody fuel rest3 with
              | some (body, r) =>
                some (Char.ofNat (((v1 * 16 + v2) * 16 + v3) * 16 + v4) :: body, r)
              | none => none
            | _, _, _, _ => none
          | _ => none
        else
          match escapeChar e with
          | some d =>
            match parseStringBody fuel rest2 with
            | some (body, r) => some (d :: body, r)
            | none => none
          | none => none
    else
      match parseStringBody fuel rest with
      | some (body, r) => some (c :: body, r)
      | none => none

def parseExpPart (acc : List Char) (s : List Char) :
    Option (List Char × List Char) :=
  match s with
  | c :: rest =>
    if c == 'e' || c == 'E' then
      match (match rest with
             | d :: r2 => if d == '+' || d == '-' then ([d], r2) else ([], rest)
             | [] => (([] : List Char), rest)) with
      | (sgn2, s2) =>
        match s2 with
        | d :: _ =>
          if isDigitCh d then
            some (acc ++ [c] ++ sgn2 ++ s2.takeWhile isDigitCh,
                  s2.dropWhile isDigitCh)
          else none
        | [] => none
    else some (acc, s)
  | [] => some (acc, s)

def parseFracExp (acc : List Char) (s : List Char) :
    Option (List Char × List Char) :=
  match s with
  | c :: rest =>
    if c == '.' then
      match rest with
      | d :: _ =>
        if isDigitCh d then
          parseExpPart (acc ++ [c] ++ rest.takeWhile isDigitCh)
            (rest.dropWhile isDigitCh)
        else none
      | [] => none
    else parseExpPart acc s
  | [] => some (acc, s)

def parseNumber (s : List Char) : Option (List Char × List Char) :=
  match (match s with
         | c :: rest => if c == '-' then ([c], rest) else (([] : List Char), s)
         | [] => (([] : List Char), s)) with
  | (sgn, s1) =>
    match s1 with
    | [] => none
    | c :: rest =>
      if c == '0' then parseFracExp (sgn ++ [c]) rest
      else if isDigitCh c then
        parseFracExp (sgn ++ (c :: rest).takeWhile isDigitCh)
          ((c :: rest).dropWhile isDigitCh)
      else none

def lbraceCh : Char := Char.ofNat 123

def rbraceCh : Char := Char.ofNat 125

mutual

def parseVal : Nat → List Char → Option (JVal × List Char)
  | 0, _ => none
  | fuel + 1, s =>
    match s with
    | [] => none
    | c :: rest =>
      if c == '"' then
        match parseStringBody (rest.length + 1) rest with
        | some (body, r) => some (JVal.str body, r)
        | none => none
      else if c == lbraceCh then
        match skipWs rest with
        | d :: r2 =>
          if d == rbraceCh then some (JVal.obj [], r2)
          else
            match parseMembers fuel (skipWs rest) with
            | some (fields, r) => some (JVal.obj fields, r)
            | none => none
        | [] => none
      else if c == '[' then
        match skipWs rest with
        | d :: r2 =>
          if d == ']' then some (JVal.arr [], r2)
          else
            match parseItems fuel (skipWs rest) with
            | some (items, r) => some (JVal.arr items, r)
            | none => none
        | [] => none
      else if startsWithL ("true".toList) s then some (JVal.bool true, s.drop 4)
      else if startsWithL ("false".toList) s then some (JVal.bool false, s.drop 5)
      else if startsWithL ("null".toList) s then some (JVal.null, s.drop 4)
      else
        match parseNumber s with
        | some (lexeme, r) => some (JVal.num lexeme, r)
        | none => none

def parseMembers : Nat → List Char → Option (List (List Char × JVal) × List Char)
  | 0, _ => none
  | fuel + 1, s =>
    match s with
    | c :: rest =>
      if c == '"' then
        match parseStringBody (rest.length + 1) rest with
        | some (key, r1) =>
          match skipWs r1 with
          | colon :: r2 =>
            if colon == ':' then
              match parseVal fuel (skipWs r2) with
              | some (v, r3) =>
                match skipWs r3 with
                | sep :: r4 =>
                  if sep == ',' then
                    match parseMembers fuel (skipWs r4) with
                    | some (fields, r5) => some ((key, v) :: fields, r5)
                    | none => none
                  else if sep == rbraceCh then some ([(key, v)], r4)
                  else none
                | [] => none
              | none => none
            else none
          | [] => none
        | none => none
      else none
    | [] => none

def parseItems : Nat → List Char → Option (List JVal × List Char)
  | 0, _ => none
  | fuel + 1, s =>
    match parseVal fuel s with
    | some (v, r1) =>
      match skipWs r1 with
      | sep :: r2 =>
        if sep == ',' then
          match parseItems fuel (skipWs r2) with
          | some (items, r3) => some (v :: items, r3)
          | none => none
        else if sep == ']' then some ([v], r2)
        else none
      | [] => none
    | none => none

end

/- Model of Python json.loads: parse one JSON value, allowing surrounding
whitespace, and reject trailing data. The fuel bound exceeds the recursion
depth reachable on any input of the given length. -/
def json_loads (s : List Char) : Option JVal :=
  match parseVal (2 * s.length + 2) (skipWs s) with
  | some (v, rest) => if (skipWs rest).isEmpty then some v else none
  | none => none

/- Model of Python dict .get(key, default) for the dict produced by
json.loads on an object: duplicate keys resolve to the last binding. -/
def dictGet (fields : List (List Char × JVal)) (key : List Char)
    (dflt : JVal) : JVal :=
  match fields.reverse.find? (fun kv => kv.1 == key) with
  | some kv => kv.2
  | none => dflt

/- ## ContentAnalyzerAgent.analyze_content (content_analyzer.py:85-112),
response-handling tail: the llm invocation and response-content extraction
are external effects, so the model takes the extracted response_content
string and performs the json.loads / dict.get / fallback logic of the
source. -/

inductive AnalyzerError where
  | attributeError

structure AnalysisResult where
  answer : JVal
  reasoning : JVal
  html_element : JVal

def directReasoningMsg : List Char := ("Direct response from model").toList

def rawReasoningMsg : List Char :=
  ("Raw response from model (not in expected JSON format)").toList

def analyze_content (response_content : List Char) :
    Except AnalyzerError AnalysisResult :=
  match json_loads response_content with
  | some (JVal.obj fields) =>
    Except.ok
      { answer := dictGet fields (("answer").toList) (JVal.str response_content),
        reasoning := dictGet fields (("reasoning").toList)
          (JVal.str directReasoningMsg),
        html_element := dictGet fields (("html_element").toList) JVal.null }
  | some _ => Except.error AnalyzerError.attributeError
  | none =>
    Except.ok
      { answer := JVal.str response_content,
        reasoning := JVal.str rawReasoningMsg,
        html_element := JVal.null }

/- True exactly when the response parses to a JSON object that binds answer
or reasoning (after the source's defaulting) to null. -/
def responseBindsNull (s : List Char) : Bool :=
  match json_loads s with
  | some (JVal.obj fields) =>
    (dictGet fields (("answer").toList) (JVal.str s)).isNull ||
    (dictGet fields (("reasoning").toList) (JVal.str directReasoningMsg)).isNull
  | _ => false

/- True exactly when the response parses to a JSON object. -/
def parsesToObj (s : List Char) : Bool :=
  match json_loads s with
  | some (JVal.obj _) => true
  | _ => false

/- ## CaptchaSolverAgent.solve_captcha (captcha_solver.py:69-83), response
normalization: solution.strip().strip(quote chars) applied to the extracted
model response content. -/

def solve_captcha (content : List Char) : List Char :=
  pyStrip quoteChars (pyStrip pyWhitespace content)

/- True when the string neither begins nor ends with a character from the
given set. -/
def noEdgeChars (chars s : List Char) : Bool :=
  (match s.head? with
   | some c => !(chars.contains c)
   | none => true) &&
  (match s.getLast? with
   | some c => !(chars.contains c)
   | none => true)

/- ## WebScraperTool.fetch_page_content (web_scraper.py:44-76), with the
Playwright browser and page modelled as oracles and the externally visible
page operations recorded as an effect trace. -/

structure BrowserOracle where
  gotoResp : List Char → Option Unit
  pageContent : List Char → List Char
  pageImages : List Char → List (List Char × List Char)

inductive FetchEffect where
  | newPage
  | goto (url : List Char)
  | contentRead
  | extractImages
  | closePage

inductive FetchError where
  | valueErrorBrowserNotInitialized
  | failedToLoad

def fetch_page_content (browser : Option BrowserOracle) (url : List Char) :
    Except FetchError (List Char × List (List Char × List Char)) ×
      List FetchEffect :=
  match browser with
  | none => (Except.error FetchError.valueErrorBrowserNotInitialized, [])
  | some b =>
    match b.gotoResp url with
    | none =>
      (Except.error FetchError.failedToLoad,
       [FetchEffect.newPage, FetchEffect.goto url, FetchEffect.closePage])
    | some _ =>
      (Except.ok (b.pageContent url, b.pageImages url),
       [FetchEffect.newPage, FetchEffect.goto url, FetchEffect.contentRead,
        FetchEffect.extractImages, FetchEffect.closePage])

/- ## WebScraperOrchestrator.process_query (orchestrator.py:70-131).
The collaborators are oracles: fetch k is the outcome of the k-th
fetch_page_content call (none = FetchFailure raised), solve k the text
returned by the k-th solve_captcha call (its value is discarded by the
source), analyze the content analyzer. The Outcome records the returned
or raised result together with how many fetch, solve and analyze calls
were performed. -/

structure Env where
  fetch : Nat → Option (List Node × List (List Char × List Char))
  solve : Nat → List Char
  analyze : List Node → List Char → List (List Char × List Char) →
    AnalysisResult

inductive PipelineError where
  | fetchFailure
  | captchaAttemptsExceeded

structure Outcome where
  result : Except PipelineError AnalysisResult
  fetches : Nat
  solves : Nat
  analyses : Nat

/- The first CAPTCHA image: first images entry whose key contains the
substring captcha, case-insensitively (orchestrator.py:103-108). -/
def find_captcha_image (images : List (List Char × List Char)) :
    Option (List Char) :=
  match images.find? (fun p => containsSub ("captcha".toList)
      (toLowerStr p.1)) with
  | some p => some p.2
  | none => none

/- The code after the while loop (orchestrator.py:123-131): raise when
attempts reached the ceiling and the page is still gated, otherwise analyze
the current content and return the analyzer result. -/
def post_loop (env : Env) (query : List Char) (maxAttempts attempts fc sc : Nat)
    (html : List Node) (images : List (List Char × List Char)) : Outcome :=
  if maxAttempts ≤ attempts ∧ detect_captcha html = true then
    { result := Except.error PipelineError.captchaAttemptsExceeded,
      fetches := fc, solves := sc, analyses := 0 }
  else
    { result := Except.ok (env.analyze html query images),
      fetches := fc, solves := sc, analyses := 1 }

/- The while loop (orchestrator.py:101-121). fuel is maxAttempts - attempts,
so the guard attempts < maxAttempts together with the one-per-iteration
increment makes the recursion structural; attempts, fc, sc carry the counter
and the number of fetch and solve calls made so far. -/
def captcha_loop (env : Env) (query : List Char) (maxAttempts : Nat) :
    Nat → Nat → Nat → Nat → List Node → List (List Char × List Char) → Outcome
  | 0, attempts, fc, sc, html, images =>
    post_loop env query maxAttempts attempts fc sc html images
  | fuel + 1, attempts, fc, sc, html, images =>
    if detect_captcha html = true ∧ attempts < maxAttempts then
      match find_captcha_image images with
      | none => post_loop env query maxAttempts (attempts + 1) fc sc html images
      | some _img =>
        let _solution := env.solve sc
        match env.fetch fc with
        | none =>
          { result := Except.error PipelineError.fetchFailure,
            fetches := fc + 1, solves := sc + 1, analyses := 0 }
        | some (html2, images2) =>
          captcha_loop env query maxAttempts fuel (attempts + 1) (fc + 1)
            (sc + 1) html2 images2
    else post_loop env query maxAttempts attempts fc sc html images

def process_query (env : Env) (query : List Char) (maxAttempts : Nat) :
    Outcome :=
  match env.fetch 0 with
  | none =>
    { result := Except.error PipelineError.fetchFailure,
      fetches := 1, solves := 0, analyses := 0 }
  | some (html, images) =>
    captcha_loop env query maxAttempts maxAttempts 0 1 0 html images

/- ## Concrete inputs used by witnesses and counterexamples -/

def res0 : AnalysisResult :=
  { answer := JVal.str ("42".toList), reasoning := JVal.str ("r".toList),
    html_element := JVal.null }

def q0 : List Char := ("What does the page say?").toList

def gatedKeyedDoc : List Node :=
  [Node.elem ("img".toList) [(("src".toList), ("captcha.png".toList))] []]

def gatedKeyedImgs : List (List Char × List Char) :=
  [(("captcha.png".toList), ("data:image/png;base64,ABC".toList))]

def gatedNoKeyDoc : List Node :=
  [Node.elem ("div".toList) [] [Node.text ("Are you a robot?".toList)]]

def plainDoc : List Node :=
  [Node.elem ("div".toList) [] [Node.text ("hello world".toList)]]

def envAllGated : Env :=
  { fetch := fun _ => some (gatedKeyedDoc, gatedKeyedImgs),
    solve := fun _ => ("SOLVED".toList),
    analyze := fun _ _ _ => res0 }

def envNoKey : Env :=
  { fetch := fun _ => some (gatedNoKeyDoc, []),
    solve := fun _ => [],
    analyze := fun _ _ _ => res0 }

def envPlain : Env :=
  { fetch := fun _ => some (plainDoc, []),
    solve := fun _ => [],
    analyze := fun _ _ _ => res0 }

def envFetchFail : Env :=
  { fetch := fun _ => none,
    solve := fun _ => [],
    analyze := fun _ _ _ => res0 }

def nullBindingResponse : List Char :=
  ("\x7b\"answer\": null, \"reasoning\": null\x7d").toList

def jsonStringResponse : List Char := ("\"hello\"").toList

def notJsonResponse : List Char := ("Not a JSON response").toList

def plainTextResponse : List Char := ("plain text").toList

def quotedSpacesResponse : List Char := ("\" hi \"").toList

/- ## Theorems -/

/-- C7: if the first fetch inside process_query raises a FetchFailure, the
pipeline fails immediately with that FetchFailure after exactly one fetch
call, and the CAPTCHA solver and the content analyzer are never invoked. -/
theorem C7_first_fetch_failure_aborts (env : Env) (q : List Char)
    (maxAttempts : Nat) (hf : env.fetch 0 = none) :
    process_query env q maxAttempts =
      { result := Except.error PipelineError.fetchFailure,
        fetches := 1, solves := 0, analyses := 0 } := by
  simp [process_query, hf]

/-- Witness for C7 at a concrete environment whose first fetch fails. -/
theorem C7_witness :
    process_query envFetchFail q0 3 =
      { result := Except.error PipelineError.fetchFailure,
        fetches := 1, solves := 0, analyses := 0 } :=
  C7_first_fetch_failure_aborts envFetchFail q0 3 rfl

/-- C8: for every max_captcha_attempts, if the first fetch's HTML is not
classified as gated, process_query performs exactly 1 fetch call and 0 solve
calls and proceeds directly to analysis, returning the analyzer's
AnalysisResult unchanged. -/
theorem C8_ungated_first_fetch_goes_straight_to_analysis (env : Env)
    (q : List Char) (maxAttempts : Nat) (html : List Node)
    (images : List (List Char × List Char))
    (hf : env.fetch 0 = some (html, images))
    (hdet : detect_captcha html = false) :
    process_query env q maxAttempts =
      { result := Except.ok (env.analyze html q images),
        fetches := 1, solves := 0, analyses := 1 } := by
  simp only [process_query, hf]
  cases maxAttempts with
  | zero =>
    simp [captcha_loop, post_loop, hdet]
  | succ n =>
    simp [captcha_loop, post_loop, hdet]

/-- Witness for C8 at a concrete ungated page and max_captcha_attempts 3. -/
theorem C8_witness :
    process_query envPlain q0 3 =
      { result := Except.ok (envPlain.analyze plainDoc q0 []),
        fetches := 1, solves := 0, analyses := 1 } :=
  C8_ungated_first_fetch_goes_straight_to_analysis envPlain q0 3 plainDoc []
    rfl (by decide)

/-- C2 counterexample: with max_captcha_attempts = 1 and a first fetch that is
gated but whose image map has no key containing captcha, process_query does
not proceed to analysis: the keyless break leaves captcha_attempts = 1, the
post-loop check 1 >= 1 fires on the still-gated page, and the pipeline raises
CaptchaAttemptsExceeded (0 analyzer calls), contradicting the claim's
"for every max_captcha_attempts >= 0 ... proceeds to analysis". -/
theorem C2_counterexample :
    process_query envNoKey q0 1 =
      { result := Except.error PipelineError.captchaAttemptsExceeded,
        fetches := 1, solves := 0, analyses := 0 } := by
  rfl

/-- C2 amended: for every max_captcha_attempts >= 2, if the first fetch is
gated but its image map contains no key containing captcha (case-insensitive),
process_query performs no solve call and proceeds to analysis on that gated
content, returning the analyzer's result after exactly 1 fetch call. (For
max_captcha_attempts <= 1 the code instead raises CaptchaAttemptsExceeded,
still without any solve call.) -/
theorem C2_amended_no_image_proceeds_to_analysis (env : Env) (q : List Char)
    (maxAttempts : Nat) (html : List Node)
    (images : List (List Char × List Char))
    (hmax : 2 ≤ maxAttempts)
    (hf : env.fetch 0 = some (html, images))
    (hdet : detect_captcha html = true)
    (hkey : find_captcha_image images = none) :
    process_query env q maxAttempts =
      { result := Except.ok (env.analyze html q images),
        fetches := 1, solves := 0, analyses := 1 } := by
  obtain ⟨m, rfl⟩ : ∃ m, maxAttempts = m + 2 := ⟨maxAttempts - 2, by omega⟩
  simp only [process_query, hf]
  simp only [captcha_loop]
  rw [if_pos ⟨hdet, by omega⟩, hkey]
  simp only [post_loop]
  rw [if_neg (fun h => absurd h.1 (by omega))]

/-- Witness for the amended C2 at a concrete gated keyless page. -/
theorem C2_witness :
    process_query envNoKey q0 2 =
      { result := Except.ok (envNoKey.analyze gatedNoKeyDoc q0 []),
        fetches := 1, solves := 0, analyses := 1 } :=
  C2_amended_no_image_proceeds_to_analysis envNoKey q0 2 gatedNoKeyDoc []
    (by omega) rfl (by decide) rfl

/- An environment in which every fetch succeeds, returns gated HTML, and
supplies an image map with a key containing captcha. -/
def allFetchesGatedKeyed (env : Env) : Prop :=
  ∀ k, ∃ html images, env.fetch k = some (html, images) ∧
    detect_captcha html = true ∧ (find_captcha_image images).isSome = true

/- Loop invariant for C1: while every fetch stays gated with a captcha-keyed
image, each of the remaining fuel = maxAttempts - attempts iterations performs
one solve and one fetch, and the loop ends in CaptchaAttemptsExceeded. -/
theorem captcha_loop_gated_exhausts (env : Env) (q : List Char)
    (maxAttempts : Nat) (hall : allFetchesGatedKeyed env) :
    ∀ fuel attempts fc sc html images,
      attempts + fuel = maxAttempts →
      detect_captcha html = true →
      (find_captcha_image images).isSome = true →
      captcha_loop env q maxAttempts fuel attempts fc sc html images =
        { result := Except.error PipelineError.captchaAttemptsExceeded,
          fetches := fc + fuel, solves := sc + fuel, analyses := 0 } := by
  intro fuel
  induction fuel with
  | zero =>
    intro attempts fc sc html images hsum hdet _hkey
    have hle : maxAttempts ≤ attempts := by omega
    simp [captcha_loop, post_loop, hdet, hle]
  | succ fuel ih =>
    intro attempts fc sc html images hsum hdet hkey
    obtain ⟨imgData, himg⟩ := Option.isSome_iff_exists.mp hkey
    obtain ⟨html2, images2, hf, hdet2, hkey2⟩ := hall fc
    simp only [captcha_loop]
    rw [if_pos ⟨hdet, by omega⟩, himg]
    simp only [hf]
    rw [ih (attempts + 1) (fc + 1) (sc + 1) html2 images2 (by omega) hdet2
      hkey2]
    have e1 : fc + 1 + fuel = fc + (fuel + 1) := by omega
    have e2 : sc + 1 + fuel = sc + (fuel + 1) := by omega
    rw [e1, e2]

/-- C1: for every configured max_captcha_attempts = N, if every fetch returns
HTML classified as gated and every fetch's image map contains a key containing
captcha (case-insensitive), process_query performs exactly N solve calls and
exactly N+1 fetch calls and then fails with CaptchaAttemptsExceeded, never
reaching the analyzer. -/
theorem C1_every_fetch_gated_exhausts_attempts (env : Env) (q : List Char)
    (maxAttempts : Nat) (hall : allFetchesGatedKeyed env) :
    process_query env q maxAttempts =
      { result := Except.error PipelineError.captchaAttemptsExceeded,
        fetches := maxAttempts + 1, solves := maxAttempts, analyses := 0 } := by
  obtain ⟨html, images, hf, hdet, hkey⟩ := hall 0
  simp only [process_query, hf]
  rw [captcha_loop_gated_exhausts env q maxAttempts hall maxAttempts 0 1 0
    html images (by omega) hdet hkey]
  have e1 : 1 + maxAttempts = maxAttempts + 1 := by omega
  have e2 : 0 + maxAttempts = maxAttempts := by omega
  rw [e1, e2]

/-- Witness for C1: max_captcha_attempts = 3 and every fetch gated with a
captcha.png image key gives 4 fetches, 3 solves, CaptchaAttemptsExceeded
(spec Scenario A). -/
theorem C1_witness :
    process_query envAllGated q0 3 =
      { result := Except.error PipelineError.captchaAttemptsExceeded,
        fetches := 4, solves := 3, analyses := 0 } :=
  C1_every_fetch_gated_exhausts_attempts envAllGated q0 3
    (fun _ => ⟨gatedKeyedDoc, gatedKeyedImgs, rfl, by decide, by decide⟩)

/-- C5: for every HTML document in which a fixed signature pattern matches the
visible text, or matches the serialized markup of some img/input/form/div
element, or some img element's src or alt attribute contains the substring
captcha (case-insensitive), detect_captcha returns true. -/
theorem C5_signature_match_detects (doc : List Node)
    (h : textHasCaptchaPhrase doc = true ∨ elemHasCaptchaPhrase doc = true ∨
      imgAttrHasCaptcha doc = true) :
    detect_captcha doc = true := by
  unfold detect_captcha
  rcases h with h | h | h
  · simp [h]
  · cases htext : textHasCaptchaPhrase doc <;> simp [h]
  · cases htext : textHasCaptchaPhrase doc <;>
      cases helem : elemHasCaptchaPhrase doc <;> simp [h]

/-- Witness for C5 at a concrete page whose img src attribute contains
captcha: the third disjunct holds while the text check alone does not. -/
theorem C5_witness :
    (textHasCaptchaPhrase gatedKeyedDoc = false ∧
      imgAttrHasCaptcha gatedKeyedDoc = true) ∧
    detect_captcha gatedKeyedDoc = true :=
  ⟨⟨by decide, by decide⟩,
   C5_signature_match_detects gatedKeyedDoc (Or.inr (Or.inr (by decide)))⟩

/-- C6: for every HTML document in which no fixed signature pattern matches
the visible text, none matches the serialized markup of any
img/input/form/div element, and no img src or alt attribute contains the
substring captcha, detect_captcha returns false. (The src/alt hypothesis here
is the code's substring check, which is weaker than the claim's "no pattern
matches any img src/alt attribute", so the theorem covers the claim.) -/
theorem C6_no_signature_not_detected (doc : List Node)
    (h1 : textHasCaptchaPhrase doc = false)
    (h2 : elemHasCaptchaPhrase doc = false)
    (h3 : imgAttrHasCaptcha doc = false) :
    detect_captcha doc = false := by
  simp [detect_captcha, h1, h2, h3]

/-- Witness for C6 at a concrete benign page. -/
theorem C6_witness :
    (textHasCaptchaPhrase plainDoc = false ∧
      elemHasCaptchaPhrase plainDoc = false ∧
      imgAttrHasCaptcha plainDoc = false) ∧
    detect_captcha plainDoc = false :=
  ⟨⟨by decide, by decide, by decide⟩,
   C6_no_signature_not_detected plainDoc (by decide) (by decide) (by decide)⟩

/-- C3 counterexample: a model response that is a JSON object binding answer
and reasoning to null is returned by analyze_content with null answer and
reasoning (result.get("answer", default) yields None when the key is present
with value null), contradicting "every successfully returned result has
non-null answer and reasoning". -/
theorem C3_counterexample :
    analyze_content nullBindingResponse =
      Except.ok
        { answer := JVal.null, reasoning := JVal.null,
          html_element := JVal.null } := by
  rfl

/-- C3 amended: every AnalysisResult successfully returned by analyze_content
has non-null answer and non-null reasoning, unless the model response parses
to a JSON object that explicitly binds answer or reasoning to null, in which
case that null is passed through. -/
theorem C3_amended_returned_fields_non_null (s : List Char)
    (r : AnalysisResult) (hbind : responseBindsNull s = false)
    (hok : analyze_content s = Except.ok r) :
    r.answer.isNull = false ∧ r.reasoning.isNull = false := by
  unfold analyze_content at hok
  unfold responseBindsNull at hbind
  cases hj : json_loads s with
  | none =>
    rw [hj] at hok
    simp only [Except.ok.injEq] at hok
    subst hok
    exact ⟨rfl, rfl⟩
  | some v =>
    cases v with
    | obj fields =>
      rw [hj] at hok hbind
      simp only [Except.ok.injEq] at hok
      subst hok
      exact ⟨(Bool.or_eq_false_iff.mp hbind).1,
        (Bool.or_eq_false_iff.mp hbind).2⟩
    | null => rw [hj] at hok; simp at hok
    | bool b => rw [hj] at hok; simp at hok
    | num l => rw [hj] at hok; simp at hok
    | str t => rw [hj] at hok; simp at hok
    | arr xs => rw [hj] at hok; simp at hok

/-- Witness for the amended C3 at a concrete non-JSON response, whose
fallback result has non-null answer and reasoning. -/
theorem C3_witness :
    responseBindsNull plainTextResponse = false ∧
    (AnalysisResult.mk (JVal.str plainTextResponse) (JVal.str rawReasoningMsg)
      JVal.null).answer.isNull = false ∧
    (AnalysisResult.mk (JVal.str plainTextResponse) (JVal.str rawReasoningMsg)
      JVal.null).reasoning.isNull = false :=
  ⟨rfl, C3_amended_returned_fields_non_null plainTextResponse _ rfl rfl⟩

/-- C4 counterexample: the response "hello" (a valid JSON string literal) is
not parseable into the structured object shape, yet analyze_content does not
degrade gracefully: json.loads succeeds with a non-dict, and the subsequent
.get raises an AttributeError that the except (JSONDecodeError, ValueError)
clause does not catch. -/
theorem C4_counterexample :
    parsesToObj jsonStringResponse = false ∧
    analyze_content jsonStringResponse =
      Except.error AnalyzerError.attributeError :=
  ⟨rfl, rfl⟩

/-- C4 amended: for every model response string that is not valid JSON at all
(json.loads raises), analyze_content does not fail: it returns the raw
response text verbatim as answer, the descriptive reasoning "Raw response
from model (not in expected JSON format)", and an absent html_element. (A
response that parses as JSON but not to an object instead raises
AttributeError.) -/
theorem C4_amended_invalid_json_degrades_gracefully (s : List Char)
    (h : json_loads s = none) :
    analyze_content s =
      Except.ok
        { answer := JVal.str s, reasoning := JVal.str rawReasoningMsg,
          html_element := JVal.null } := by
  unfold analyze_content
  rw [h]

/-- Witness for the amended C4 at the spec's Scenario C response
"Not a JSON response". -/
theorem C4_witness :
    json_loads notJsonResponse = none ∧
    analyze_content notJsonResponse =
      Except.ok
        { answer := JVal.str notJsonResponse,
          reasoning := JVal.str rawReasoningMsg,
          html_element := JVal.null } :=
  ⟨rfl, C4_amended_invalid_json_degrades_gracefully notJsonResponse rfl⟩

/- The head of dropWhile never satisfies the dropped predicate. -/
theorem dropWhile_head?_false (p : Char → Bool) :
    ∀ (l : List Char) (c : Char), (l.dropWhile p).head? = some c →
      p c = false := by
  intro l
  induction l with
  | nil => intro c h; simp at h
  | cons a as ih =>
    intro c h
    rw [List.dropWhile_cons] at h
    by_cases hp : p a = true
    · rw [if_pos hp] at h
      exact ih c h
    · rw [if_neg hp] at h
      simp only [List.head?_cons, Option.some.injEq] at h
      subst h
      exact Bool.eq_false_iff.mpr hp

/- dropWhile is empty or keeps the last element of its input. -/
theorem dropWhile_getLast?_eq (p : Char → Bool) :
    ∀ l : List Char, l.dropWhile p = [] ∨
      (l.dropWhile p).getLast? = l.getLast? := by
  intro l
  induction l with
  | nil => left; rfl
  | cons a as ih =>
    rw [List.dropWhile_cons]
    by_cases hp : p a = true
    · rw [if_pos hp]
      by_cases hnil : as.dropWhile p = []
      · left; exact hnil
      · right
        rcases ih with h | h
        · exact absurd h hnil
        · rw [h]
          cases as with
          | nil => simp at hnil
          | cons b bs => rw [List.getLast?_cons_cons]
    · rw [if_neg hp]; right; rfl

/- A Python strip never leaves a stripped character at either end. -/
theorem pyStrip_noEdgeChars (chars : List Char) (s : List Char) :
    noEdgeChars chars (pyStrip chars s) = true := by
  unfold pyStrip noEdgeChars
  rw [Bool.and_eq_true]
  constructor
  · rw [List.head?_reverse]
    cases hlast :
        ((s.dropWhile (fun c => chars.contains c)).reverse.dropWhile
          (fun c => chars.contains c)).getLast? with
    | none => rfl
    | some c =>
      rcases dropWhile_getLast?_eq (fun c => chars.contains c)
          (s.dropWhile (fun c => chars.contains c)).reverse with h | h
      · rw [h] at hlast; simp at hlast
      · rw [h, List.getLast?_reverse] at hlast
        have hc : chars.contains c = false :=
          dropWhile_head?_false (fun c => chars.contains c) s c hlast
        show (!chars.contains c) = true
        rw [hc]
        rfl
  · rw [List.getLast?_reverse]
    cases hhead :
        ((s.dropWhile (fun c => chars.contains c)).reverse.dropWhile
          (fun c => chars.contains c)).head? with
    | none => rfl
    | some c =>
      have hc : chars.contains c = false :=
        dropWhile_head?_false (fun c => chars.contains c)
          (s.dropWhile (fun c => chars.contains c)).reverse c hhead
      show (!chars.contains c) = true
      rw [hc]
      rfl

/-- C9 counterexample: the model response consisting of a double-quoted " hi "
is normalized by solve_captcha to a solution that still begins (and ends)
with a whitespace character, because the quotes are stripped only after the
whitespace pass; this contradicts "the returned solution never has leading or
trailing whitespace". -/
theorem C9_counterexample :
    (solve_captcha quotedSpacesResponse).head? = some ' ' ∧
    pyWhitespace.contains ' ' = true :=
  ⟨rfl, rfl⟩

/-- C9 amended: solve_captcha returns the model response content normalized by
first stripping leading/trailing whitespace and then stripping surrounding
double-quote and single-quote characters; the returned solution never begins
or ends with a quote character, though whitespace that was protected by
surrounding quotes can survive at the edges. -/
theorem C9_amended_solution_normalization (content : List Char) :
    solve_captcha content =
      pyStrip quoteChars (pyStrip pyWhitespace content) ∧
    noEdgeChars quoteChars (solve_captcha content) = true :=
  ⟨rfl, pyStrip_noEdgeChars quoteChars (pyStrip pyWhitespace content)⟩

/-- C10: calling fetch_page_content with an uninitialized browser (outside
the context-manager scope) fails with a ValueError and performs no page
operation at all: the effect trace is empty, so no navigation and no image
extraction is ever attempted. -/
theorem C10_uninitialized_browser_value_error (url : List Char) :
    fetch_page_content none url =
      (Except.error FetchError.valueErrorBrowserNotInitialized, []) := by
  rfl
